import Mathlib

/-!
Verification development for the voice-driven conversational client
(`useLiveKit` hook and `VoiceInterface` component).

The observable state of the hook is embedded as `ClientState`; each event
handler of the source (track lifecycle handlers, the `DataReceived` handler,
the `RoomEvent.Disconnected` handler, `disconnect`, `addTranscriptEntry`)
becomes a pure state-transition function.  Inbound data-channel payloads are
embedded as `Payload`: either an invalid frame (empty / whitespace-only text
or a JSON parse failure, both of which the source silently ignores) or a
parsed JSON object `JsonMsg` whose optional string fields mirror the fields
the source reads (`type`, `state`, `message`, `options`, `text`, `speaker`).
JavaScript string truthiness (`undefined` and `""` are falsy) is `strTruthy`;
`x || null` on a string field is `jsOrNull`.
-/

/-- One transcript entry: `{speaker, text, timestamp}` as built in the
`setTranscript` updater and in `addTranscriptEntry`.  The `Date` timestamp is
abstracted as a natural number. -/
structure TranscriptEntry where
  speaker : String
  text : String
  timestamp : Nat
deriving Repr, DecidableEq

/-- The observable state held by the `useLiveKit` hook (its `useState` slots),
plus `roomExists` standing for `room !== null`. -/
structure ClientState where
  roomExists : Bool
  isConnected : Bool
  isConnecting : Bool
  error : Option String
  transcript : List TranscriptEntry
  isAgentTyping : Bool
  isAgentSpeaking : Bool
  agentState : Option String
  agentStateMessage : Option String
  isUserExpectedToSpeak : Bool
  options : List String
  optionsMessage : Option String
  currentSpeech : String
deriving Repr, DecidableEq

/-- The initial values of every `useState` slot in `useLiveKit`. -/
def initialState : ClientState :=
  { roomExists := false
    isConnected := false
    isConnecting := false
    error := none
    transcript := []
    isAgentTyping := false
    isAgentSpeaking := false
    agentState := none
    agentStateMessage := none
    isUserExpectedToSpeak := false
    options := []
    optionsMessage := none
    currentSpeech := "" }

/-- JavaScript truthiness of an optional string: `undefined` and `""` are
falsy, every other string is truthy. -/
def strTruthy : Option String → Bool
  | none => false
  | some s => decide (s ≠ "")

/-- The JavaScript idiom `v || null` on an optional string field. -/
def jsOrNull (v : Option String) : Option String :=
  if strTruthy v then v else none

/-- A parsed inbound JSON message; only the fields the `DataReceived` handler
reads are modelled, each optional (absent field = `undefined`). -/
structure JsonMsg where
  type : Option String := none
  state : Option String := none
  message : Option String := none
  options : Option (List String) := none
  text : Option String := none
  speaker : Option String := none
deriving Repr, DecidableEq

/-- An inbound data-channel payload from the remote participant: `invalid`
is a frame whose decoded text is empty/whitespace-only or fails JSON parsing
(both silently ignored by the source); `msg` is a parsed JSON object. -/
inductive Payload where
  | invalid
  | msg (m : JsonMsg)
deriving Repr, DecidableEq

/-- Whether a transcript entry matches a candidate `(speaker, text)` pair —
the predicate used by `prev.some(...)` in the `setTranscript` updater. -/
def entryMatches (sp tx : String) (e : TranscriptEntry) : Bool :=
  decide (e.speaker = sp ∧ e.text = tx)

/-- The `setTranscript` updater of the transcript branch: if any entry of the
current log (not only the last) has the candidate speaker and text, the log
is returned unchanged; otherwise the new entry is appended at the end. -/
def transcriptDedupAppend (prev : List TranscriptEntry) (sp tx : String)
    (now : Nat) : List TranscriptEntry :=
  if prev.any (entryMatches sp tx) then prev
  else prev ++ [⟨sp, tx, now⟩]

/-- Bool test used throughout: is the current agent state `ready_to_speak`. -/
def isReadyToSpeak (s : ClientState) : Bool :=
  decide (s.agentState = some "ready_to_speak")

/-- The `state_update` branch of the `DataReceived` handler. -/
def handleStateUpdate (m : JsonMsg) (s : ClientState) : ClientState :=
  { s with
    agentState := m.state
    agentStateMessage := jsOrNull m.message
    isUserExpectedToSpeak := decide (m.state = some "waiting_for_user")
    isAgentTyping :=
      decide (m.state = some "thinking" ∨ m.state = some "processing" ∨
        m.state = some "ready_to_speak") }

/-- The `options` branch of the `DataReceived` handler
(`data.options || []`, `data.message || null`). -/
def handleOptions (m : JsonMsg) (s : ClientState) : ClientState :=
  { s with
    options := m.options.getD []
    optionsMessage := jsOrNull m.message }

/-- The `current_speech` branch of the `DataReceived` handler
(`data.text || ""`). -/
def handleCurrentSpeech (m : JsonMsg) (s : ClientState) : ClientState :=
  { s with currentSpeech := (jsOrNull m.text).getD "" }

/-- The `transcript` branch of the `DataReceived` handler.  The whole body —
hiding the typing indicator, clearing a stale `ready_to_speak`, clearing the
state message, and the dedup-append — runs only when `data.text` is truthy;
a missing or empty `text` leaves the state untouched. -/
def handleTranscriptMsg (m : JsonMsg) (now : Nat) (s : ClientState) :
    ClientState :=
  if strTruthy m.text then
    { s with
      isAgentTyping := false
      agentState :=
        if s.agentState = some "ready_to_speak" then none else s.agentState
      agentStateMessage := none
      transcript :=
        transcriptDedupAppend s.transcript ((jsOrNull m.speaker).getD "agent")
          (m.text.getD "") now }
  else s

/-- The `RoomEvent.DataReceived` handler for a payload from the remote
participant: invalid frames are ignored; a parsed message is dispatched on
its `type` field, and any unrecognized type falls through with no effect. -/
def dataReceived (p : Payload) (now : Nat) (s : ClientState) : ClientState :=
  match p with
  | .invalid => s
  | .msg m =>
    if m.type = some "state_update" then handleStateUpdate m s
    else if m.type = some "options" then handleOptions m s
    else if m.type = some "current_speech" then handleCurrentSpeech m s
    else if m.type = some "transcript" then handleTranscriptMsg m now s
    else s

/-- Remote-audio-track lifecycle events handled in the source:
`RoomEvent.TrackSubscribed` plus the four `track.on(...)` listeners. -/
inductive TrackEvent where
  | subscribed
  | started
  | ended
  | muted
  | unmuted
deriving Repr, DecidableEq

/-- Effect of each track-lifecycle handler on the hook state. -/
def trackEvent (e : TrackEvent) (s : ClientState) : ClientState :=
  match e with
  | .subscribed => { s with isAgentTyping := true }
  | .started =>
    { s with
      isAgentTyping := false
      isAgentSpeaking := true
      agentState :=
        if s.agentState = some "ready_to_speak" then none else s.agentState
      agentStateMessage := none }
  | .ended =>
    { s with
      isAgentTyping := false
      isAgentSpeaking := false
      agentState := some "waiting_for_user"
      agentStateMessage := some "Waiting for your response..."
      isUserExpectedToSpeak := true }
  | .muted => { s with isAgentSpeaking := false }
  | .unmuted => { s with isAgentSpeaking := true }

/-- Process a sequence of track-lifecycle events in order. -/
def runTrack (s : ClientState) : List TrackEvent → ClientState
  | [] => s
  | e :: es => runTrack (trackEvent e s) es

/-- The `RoomEvent.Disconnected` handler. -/
def roomDisconnectedEvent (s : ClientState) : ClientState :=
  { s with
    isConnected := false
    isConnecting := false
    isAgentTyping := false
    agentState := none
    agentStateMessage := none
    isUserExpectedToSpeak := false
    options := []
    optionsMessage := none
    currentSpeech := "" }

/-- The `disconnect` callback: a no-op when `room` is `null`; otherwise
`room.disconnect()` fires the registered `RoomEvent.Disconnected` handler,
after which the callback clears `room` and the remaining per-session state
(`transcript` included). -/
def disconnect (s : ClientState) : ClientState :=
  if s.roomExists then
    let s1 := roomDisconnectedEvent s
    { s1 with
      roomExists := false
      isConnected := false
      transcript := []
      isAgentTyping := false
      agentState := none
      agentStateMessage := none
      isUserExpectedToSpeak := false }
  else s

/-- The exposed `addTranscriptEntry` action: unconditional append of one
entry, with no duplicate suppression and no check on `text`. -/
def addTranscriptEntry (prev : List TranscriptEntry) (sp tx : String)
    (now : Nat) : List TranscriptEntry :=
  prev ++ [⟨sp, tx, now⟩]

/-!
Audio Level Analyzer (`VoiceInterface.js`).  `updateLevels` reads the
byte frequency data (`Uint8Array` of length `frequencyBinCount = 128`,
entries in `[0,255]`), averages 5 contiguous bands of `⌊length/5⌋` bins and
normalizes each average to `[0,100]` via `Math.min(100, level / 255 * 100)`.
Real arithmetic is embedded in `ℚ`.  The inactive-capture branch of the
analysis effect resets the vector and the speaking flag.
-/

/-- The visualization state of `VoiceInterface`: the 5-band level vector and
the speaking flag. -/
structure AudioVizState where
  audioLevels : List ℚ
  isSpeaking : Bool

/-- Average of band `i` of the frequency data: the mean of `bandSize`
consecutive bins starting at `i * bandSize`. -/
def bandAvg (data : List Nat) (bandSize i : Nat) : ℚ :=
  (((List.range bandSize).map
    (fun j => ((data.getD (i * bandSize + j) 0 : Nat) : ℚ))).sum) /
    (bandSize : ℚ)

/-- Normalization of a raw band average: `Math.min(100, level / 255 * 100)`. -/
def normalizeLevel (level : ℚ) : ℚ :=
  min 100 (level / 255 * 100)

/-- One analysis tick (`updateLevels`): the 5 normalized band levels. -/
def updateLevels (data : List Nat) : List ℚ :=
  let bandSize := data.length / 5
  (List.range 5).map (fun i => normalizeLevel (bandAvg data bandSize i))

/-- The inactive-capture branch of the audio-analysis effect: the instant
capture stops, the speaking flag is cleared and the vector zeroed. -/
def captureInactiveReset (s : AudioVizState) : AudioVizState :=
  { s with isSpeaking := false, audioLevels := [0, 0, 0, 0, 0] }

/-!
Well-formed single-track lifecycle sequences: `subscribed` then `started`,
any number of `muted`/`unmuted` while live, then `ended`, possibly repeated.
Used to state the amended form of the typing/speaking exclusion invariant.
-/

/-- Phase of a single remote audio track's lifecycle. -/
inductive TrackPhase where
  | idle
  | pending
  | live
deriving Repr, DecidableEq

/-- One step of the lifecycle grammar; `none` means the event is out of
order for the current phase. -/
def phaseStep : TrackPhase → TrackEvent → Option TrackPhase
  | .idle, .subscribed => some .pending
  | .pending, .started => some .live
  | .live, .muted => some .live
  | .live, .unmuted => some .live
  | .live, .ended => some .idle
  | _, _ => none

/-- Run the lifecycle grammar over a sequence of events. -/
def phaseRun : TrackPhase → List TrackEvent → Option TrackPhase
  | p, [] => some p
  | p, e :: es =>
    match phaseStep p e with
    | some q => phaseRun q es
    | none => none

/-- A sequence of track events respects the single-track lifecycle order. -/
def lifecycleOrdered (es : List TrackEvent) : Bool :=
  (phaseRun .idle es).isSome

/-- Invariant tying the lifecycle phase to the derived booleans: while no
track is pending or live both flags are clear; while a track is pending the
agent is not yet speaking; while it is live the typing hint is off. -/
def phaseInv : TrackPhase → ClientState → Prop
  | .idle, s => s.isAgentTyping = false ∧ s.isAgentSpeaking = false
  | .pending, s => s.isAgentSpeaking = false
  | .live, s => s.isAgentTyping = false

/-!
Claim theorems.
-/

/-- C1 (counterexample): the spec's last-entry-only rule fails on the code.
In the log `[(agent, hi), (user, yo)]` the last entry differs from the
candidate `(agent, hi)`, so per the claim the append should grow the log to
length 3; the code finds the matching entry earlier in the log and leaves
the length at 2. -/
theorem transcript_append_last_only_counterexample :
    ([⟨"agent", "hi", 0⟩, ⟨"user", "yo", 1⟩] : List TranscriptEntry).getLast?
      = some ⟨"user", "yo", 1⟩ ∧
    (transcriptDedupAppend [⟨"agent", "hi", 0⟩, ⟨"user", "yo", 1⟩]
      "agent" "hi" 2).length = 2 := by
  constructor <;> rfl

/-- C1 (amended): the transcript append suppresses a candidate whose
`(speaker, text)` matches ANY entry of the log (not only the last): in that
case the length is unchanged; when no entry matches, the log grows by
exactly one entry carrying the candidate's speaker and text. -/
theorem transcript_append_dedup_anywhere (prev : List TranscriptEntry)
    (sp tx : String) (now : Nat) :
    ((∃ e ∈ prev, e.speaker = sp ∧ e.text = tx) →
      (transcriptDedupAppend prev sp tx now).length = prev.length)
    ∧ ((¬ ∃ e ∈ prev, e.speaker = sp ∧ e.text = tx) →
      (transcriptDedupAppend prev sp tx now).length = prev.length + 1 ∧
      (transcriptDedupAppend prev sp tx now).getLast? = some ⟨sp, tx, now⟩) := by
  have hiff : prev.any (entryMatches sp tx) = true ↔
      ∃ e ∈ prev, e.speaker = sp ∧ e.text = tx := by
    simp [List.any_eq_true, entryMatches]
  constructor
  · intro h
    rw [transcriptDedupAppend, if_pos (hiff.mpr h)]
  · intro h
    have hneg : ¬ (prev.any (entryMatches sp tx) = true) := fun hc => h (hiff.mp hc)
    rw [transcriptDedupAppend, if_neg hneg]
    constructor
    · simp
    · simp

/-- C1 (witness): concrete instances of both arms of
`transcript_append_dedup_anywhere`. -/
theorem transcript_append_dedup_anywhere_witness :
    (transcriptDedupAppend [⟨"agent", "hi", 0⟩] "agent" "hi" 5).length = 1 ∧
    ((transcriptDedupAppend [⟨"agent", "hi", 0⟩] "user" "yo" 5).length = 2 ∧
      (transcriptDedupAppend [⟨"agent", "hi", 0⟩] "user" "yo" 5).getLast?
        = some ⟨"user", "yo", 5⟩) :=
  ⟨(transcript_append_dedup_anywhere [⟨"agent", "hi", 0⟩] "agent" "hi" 5).1
      (by decide),
    (transcript_append_dedup_anywhere [⟨"agent", "hi", 0⟩] "user" "yo" 5).2
      (by decide)⟩

/-- C2 (counterexample): starting from the initial state, the remote track's
`started` event fires, then a `state_update` message with state
`ready_to_speak` is delivered; the final `agentState` IS `ready_to_speak`
(the `state_update` branch assigns `data.state` unconditionally), refuting
the claim that it resolves to not-ready regardless of delivery order. -/
theorem ready_after_started_counterexample :
    (dataReceived
      (.msg { type := some "state_update", state := some "ready_to_speak" })
      0 (trackEvent .started initialState)).agentState
      = some "ready_to_speak" := rfl

/-- C2 (amended): the race protection only covers the opposite order — for
every state and every message delivered before it, once the `started` event
fires the agent state is not `ready_to_speak` (the `started` handler clears
it); a `state_update` carrying `ready_to_speak` that arrives after `started`
overwrites the state with `ready_to_speak`. -/
theorem started_after_message_not_ready (s : ClientState) (m : JsonMsg)
    (now : Nat) :
    isReadyToSpeak (trackEvent .started (dataReceived (.msg m) now s)) = false := by
  have key : ∀ t : ClientState, isReadyToSpeak (trackEvent .started t) = false := by
    intro t
    by_cases h : t.agentState = some "ready_to_speak" <;>
      simp [trackEvent, isReadyToSpeak, h]
  exact key _

/-- C3 (counterexample): a `transcript` message with missing `text` is
dropped without touching any state: starting with `isAgentTyping = true` and
`agentState = ready_to_speak`, both survive, refuting "regardless of prior
values ... isAgentTyping is false and agentState is not ready_to_speak". -/
theorem transcript_missing_text_counterexample :
    (dataReceived (.msg { type := some "transcript" }) 0
      { initialState with
        isAgentTyping := true
        agentState := some "ready_to_speak" }).isAgentTyping = true ∧
    (dataReceived (.msg { type := some "transcript" }) 0
      { initialState with
        isAgentTyping := true
        agentState := some "ready_to_speak" }).agentState
      = some "ready_to_speak" := by
  constructor <;> rfl

/-- C3 (amended): for a `transcript` message whose `text` is present and
non-empty, processing always ends with `isAgentTyping = false` and
`agentState ≠ ready_to_speak`; a `transcript` message with missing or empty
`text` leaves the whole state unchanged (including the typing flag and a
stale `ready_to_speak`). -/
theorem transcript_msg_truthy_clears_typing (s : ClientState) (m : JsonMsg)
    (now : Nat) (ht : m.type = some "transcript") :
    (strTruthy m.text = true →
      (dataReceived (.msg m) now s).isAgentTyping = false ∧
      isReadyToSpeak (dataReceived (.msg m) now s) = false)
    ∧ (strTruthy m.text = false → dataReceived (.msg m) now s = s) := by
  have hd : dataReceived (.msg m) now s = handleTranscriptMsg m now s := by
    simp [dataReceived, ht]
  constructor
  · intro htx
    rw [hd]
    unfold handleTranscriptMsg
    rw [if_pos htx]
    refine ⟨rfl, ?_⟩
    by_cases h : s.agentState = some "ready_to_speak" <;>
      simp [isReadyToSpeak, h]
  · intro htx
    rw [hd]
    unfold handleTranscriptMsg
    rw [if_neg (by simp [htx])]

/-- C3 (witness): concrete instance of `transcript_msg_truthy_clears_typing`
on a transcript message with non-empty text from the initial state. -/
theorem transcript_msg_truthy_clears_typing_witness :
    (dataReceived (.msg { type := some "transcript", text := some "hello" })
      0 initialState).isAgentTyping = false ∧
    isReadyToSpeak (dataReceived
      (.msg { type := some "transcript", text := some "hello" })
      0 initialState) = false :=
  (transcript_msg_truthy_clears_typing initialState
    { type := some "transcript", text := some "hello" } 0 rfl).1 (by decide)

/-- C4 (counterexample): with two remote audio tracks, the sequence
subscribed, started (first track), subscribed (second track, while the first
is still audible) leaves `isAgentTyping = true` and `isAgentSpeaking = true`
simultaneously, refuting the claimed invariant over all event sequences. -/
theorem typing_and_speaking_counterexample :
    (runTrack initialState [.subscribed, .started, .subscribed]).isAgentTyping
      = true ∧
    (runTrack initialState [.subscribed, .started, .subscribed]).isAgentSpeaking
      = true := by
  constructor <;> rfl

/-- Helper for C4: one grammar-respecting event step preserves the phase
invariant. -/
theorem phaseInv_step {p q : TrackPhase} {e : TrackEvent} {s : ClientState}
    (hstep : phaseStep p e = some q) (hinv : phaseInv p s) :
    phaseInv q (trackEvent e s) := by
  cases p <;> cases e <;>
    simp [phaseStep] at hstep <;>
    subst hstep <;>
    simp [phaseInv, trackEvent] at hinv ⊢ <;>
    tauto

/-- Helper for C4: running a grammar-respecting event sequence preserves the
phase invariant. -/
theorem phaseInv_run :
    ∀ (es : List TrackEvent) (p q : TrackPhase) (s : ClientState),
      phaseRun p es = some q → phaseInv p s → phaseInv q (runTrack s es)
  | [], p, q, s => by
    intro hrun hinv
    simp [phaseRun] at hrun
    subst hrun
    exact hinv
  | e :: es, p, q, s => by
    intro hrun hinv
    rw [phaseRun] at hrun
    cases hstep : phaseStep p e with
    | none => rw [hstep] at hrun; exact absurd hrun (by simp)
    | some r =>
      rw [hstep] at hrun
      exact phaseInv_run es r q (trackEvent e s)
        hrun (phaseInv_step hstep hinv)

/-- C4 (amended): the typing/speaking mutual-exclusion invariant holds for
every event sequence that respects the single-track lifecycle grammar
(subscribed; started; any muted/unmuted; ended — possibly repeated, with no
overlapping second track): after processing such a sequence from the initial
state, `isAgentTyping` and `isAgentSpeaking` are never simultaneously true.
With overlapping tracks or out-of-order events both flags can be true at
once (see the counterexample). -/
theorem typing_speaking_exclusive_of_lifecycle (es : List TrackEvent)
    (hwf : lifecycleOrdered es = true) :
    ((runTrack initialState es).isAgentTyping &&
      (runTrack initialState es).isAgentSpeaking) = false := by
  rw [lifecycleOrdered, Option.isSome_iff_exists] at hwf
  obtain ⟨q, hq⟩ := hwf
  have hinv0 : phaseInv .idle initialState := by
    constructor <;> rfl
  have hfin := phaseInv_run es .idle q initialState hq hinv0
  cases q with
  | idle =>
    have h1 : (runTrack initialState es).isAgentTyping = false := hfin.1
    rw [h1]
    rfl
  | pending =>
    have h1 : (runTrack initialState es).isAgentSpeaking = false := hfin
    rw [h1]
    exact Bool.and_false _
  | live =>
    have h1 : (runTrack initialState es).isAgentTyping = false := hfin
    rw [h1]
    rfl

/-- C4 (witness): a full concrete lifecycle — subscribed, started, muted,
unmuted, ended — is grammar-respecting and ends with the two flags not both
true. -/
theorem typing_speaking_exclusive_witness :
    ((runTrack initialState [.subscribed, .started, .muted, .unmuted, .ended]).isAgentTyping &&
      (runTrack initialState [.subscribed, .started, .muted, .unmuted, .ended]).isAgentSpeaking)
      = false :=
  typing_speaking_exclusive_of_lifecycle
    [.subscribed, .started, .muted, .unmuted, .ended] (by decide)

/-- Helper for C5: `disconnect` leaves a room-less state untouched. -/
theorem disconnect_noop {t : ClientState} (h : t.roomExists = false) :
    disconnect t = t := by
  rw [disconnect, if_neg (by simp [h])]

/-- C5 (confirmed): `disconnect` is a no-op when no room exists (no state
change, and — being a total function — no exception), and running it twice
from any state yields exactly the state of running it once. -/
theorem disconnect_idempotent (s : ClientState) :
    (s.roomExists = false → disconnect s = s) ∧
    disconnect (disconnect s) = disconnect s := by
  constructor
  · exact disconnect_noop
  · by_cases hr : s.roomExists
    · exact disconnect_noop (by simp [disconnect, hr])
    · simp only [Bool.not_eq_true] at hr
      rw [disconnect_noop hr]
      exact disconnect_noop hr

/-- C5 (witness): concrete instance of `disconnect_idempotent` on the initial
(unconnected) state. -/
theorem disconnect_idempotent_witness :
    disconnect initialState = initialState ∧
    disconnect (disconnect initialState) = disconnect initialState :=
  ⟨(disconnect_idempotent initialState).1 rfl,
    (disconnect_idempotent initialState).2⟩

/-- C6 (confirmed): on a state whose room exists, `disconnect` — which fires
the registered `RoomEvent.Disconnected` handler via `room.disconnect()` and
then applies its own clears — leaves every piece of per-session derived
state cleared. -/
theorem disconnect_clears_session (s : ClientState)
    (hr : s.roomExists = true) :
    (disconnect s).agentState = none ∧
    (disconnect s).agentStateMessage = none ∧
    (disconnect s).isUserExpectedToSpeak = false ∧
    (disconnect s).options = [] ∧
    (disconnect s).optionsMessage = none ∧
    (disconnect s).currentSpeech = "" ∧
    (disconnect s).transcript = [] ∧
    (disconnect s).isAgentTyping = false := by
  rw [disconnect, if_pos hr]
  exact ⟨rfl, rfl, rfl, rfl, rfl, rfl, rfl, rfl⟩

/-- C6 (witness): concrete instance of `disconnect_clears_session` on a
fully-populated connected state. -/
theorem disconnect_clears_session_witness :
    (disconnect
      { roomExists := true
        isConnected := true
        isConnecting := false
        error := none
        transcript := [⟨"agent", "hi", 0⟩]
        isAgentTyping := true
        isAgentSpeaking := true
        agentState := some "thinking"
        agentStateMessage := some "Let me check..."
        isUserExpectedToSpeak := true
        options := ["Outdoor", "Indoor"]
        optionsMessage := some "Pick one"
        currentSpeech := "hello" }).agentState = none ∧
    (disconnect
      { roomExists := true
        isConnected := true
        isConnecting := false
        error := none
        transcript := [⟨"agent", "hi", 0⟩]
        isAgentTyping := true
        isAgentSpeaking := true
        agentState := some "thinking"
        agentStateMessage := some "Let me check..."
        isUserExpectedToSpeak := true
        options := ["Outdoor", "Indoor"]
        optionsMessage := some "Pick one"
        currentSpeech := "hello" }).transcript = [] :=
  ⟨(disconnect_clears_session _ rfl).1,
    (disconnect_clears_session _ rfl).2.2.2.2.2.2.1⟩

/-- C7 (confirmed): after any `state_update` message, the typing flag holds
exactly when the new agent state is `thinking`, `processing` or
`ready_to_speak`, and the user-expected-to-speak flag holds exactly when the
new agent state is `waiting_for_user`. -/
theorem state_update_derived_flags (s : ClientState) (m : JsonMsg) (now : Nat)
    (ht : m.type = some "state_update") :
    ((dataReceived (.msg m) now s).isAgentTyping = true ↔
      ((dataReceived (.msg m) now s).agentState = some "thinking" ∨
        (dataReceived (.msg m) now s).agentState = some "processing" ∨
        (dataReceived (.msg m) now s).agentState = some "ready_to_speak")) ∧
    ((dataReceived (.msg m) now s).isUserExpectedToSpeak = true ↔
      (dataReceived (.msg m) now s).agentState = some "waiting_for_user") := by
  have hd : dataReceived (.msg m) now s = handleStateUpdate m s := by
    simp [dataReceived, ht]
  rw [hd]
  unfold handleStateUpdate
  constructor
  · simp
  · simp

/-- C7 (witness): concrete instance of `state_update_derived_flags` on a
`thinking` update from the initial state. -/
theorem state_update_derived_flags_witness :
    ((dataReceived (.msg { type := some "state_update", state := some "thinking" })
        0 initialState).isAgentTyping = true ↔
      ((dataReceived (.msg { type := some "state_update", state := some "thinking" })
          0 initialState).agentState = some "thinking" ∨
        (dataReceived (.msg { type := some "state_update", state := some "thinking" })
          0 initialState).agentState = some "processing" ∨
        (dataReceived (.msg { type := some "state_update", state := some "thinking" })
          0 initialState).agentState = some "ready_to_speak")) ∧
    ((dataReceived (.msg { type := some "state_update", state := some "thinking" })
        0 initialState).isUserExpectedToSpeak = true ↔
      (dataReceived (.msg { type := some "state_update", state := some "thinking" })
        0 initialState).agentState = some "waiting_for_user") :=
  state_update_derived_flags initialState
    { type := some "state_update", state := some "thinking" } 0 rfl

/-- C8 (confirmed): an invalid payload (empty frame or JSON parse failure)
and a parsed message whose `type` is none of the four recognized tags leave
the entire observable state — transcript, agent state and message, options,
current speech, all derived flags, and the error slot — unchanged; the
handlers are total, so no exception escapes and no error is surfaced. -/
theorem unrecognized_payload_noop (s : ClientState) (m : JsonMsg) (now : Nat)
    (h1 : m.type ≠ some "state_update") (h2 : m.type ≠ some "options")
    (h3 : m.type ≠ some "current_speech") (h4 : m.type ≠ some "transcript") :
    dataReceived Payload.invalid now s = s ∧
    dataReceived (.msg m) now s = s := by
  refine ⟨rfl, ?_⟩
  simp [dataReceived, h1, h2, h3, h4]

/-- C8 (witness): concrete instance of `unrecognized_payload_noop` on a
foreign `telemetry` message. -/
theorem unrecognized_payload_noop_witness :
    dataReceived Payload.invalid 0 initialState = initialState ∧
    dataReceived (.msg { type := some "telemetry" }) 0 initialState
      = initialState :=
  unrecognized_payload_noop initialState { type := some "telemetry" } 0
    (by decide) (by decide) (by decide) (by decide)

/-- Helper for C9: a raw band average is non-negative (a mean of casts of
byte values). -/
theorem bandAvg_nonneg (data : List Nat) (bandSize i : Nat) :
    0 ≤ bandAvg data bandSize i := by
  rw [bandAvg]
  apply div_nonneg _ (Nat.cast_nonneg _)
  apply List.sum_nonneg
  intro x hx
  simp only [List.mem_map] at hx
  obtain ⟨j, _, rfl⟩ := hx
  exact Nat.cast_nonneg _

/-- C9 (confirmed): every analysis tick produces exactly 5 levels, each in
`[0, 100]` (the `Math.min(100, ·)` cap gives the upper bound, non-negative
byte data the lower), and the inactive-capture branch resets the vector to
all zeros and the speaking flag to `false` the instant capture stops. -/
theorem audio_levels_in_range (data : List Nat) (_hlen : data.length = 128)
    (_hb : ∀ b ∈ data, b ≤ 255) :
    ((updateLevels data).length = 5 ∧
      ∀ q ∈ updateLevels data, 0 ≤ q ∧ q ≤ 100) ∧
    ∀ v : AudioVizState,
      (captureInactiveReset v).audioLevels = [0, 0, 0, 0, 0] ∧
      (captureInactiveReset v).isSpeaking = false := by
  refine ⟨⟨by simp [updateLevels], ?_⟩, fun v => ⟨rfl, rfl⟩⟩
  intro q hq
  simp only [updateLevels, List.mem_map, List.mem_range] at hq
  obtain ⟨i, _, rfl⟩ := hq
  rw [normalizeLevel]
  constructor
  · apply le_min (by norm_num)
    apply mul_nonneg _ (by norm_num)
    exact div_nonneg (bandAvg_nonneg data (data.length / 5) i) (by norm_num)
  · exact min_le_left _ _

/-- C9 (witness): concrete instance of `audio_levels_in_range` on a full
128-bin frame of byte value 200, specialized to the reset conjunct at a
concrete visualization state. -/
theorem audio_levels_in_range_witness :
    (captureInactiveReset ⟨[(55 : ℚ), 4, 3, 2, 1], true⟩).audioLevels
      = [0, 0, 0, 0, 0] ∧
    (captureInactiveReset ⟨[(55 : ℚ), 4, 3, 2, 1], true⟩).isSpeaking
      = false :=
  (audio_levels_in_range (List.replicate 128 200) (by simp)
    (by intro b hb; rw [List.eq_of_mem_replicate hb]; norm_num)).2
    ⟨[(55 : ℚ), 4, 3, 2, 1], true⟩

/-- C10 (confirmed, implicit claim): the exposed `addTranscriptEntry` action
appends exactly one entry on every call, with no duplicate suppression and
no non-empty check on `text` — so it can create adjacent identical entries
and empty-text entries; by contrast, the data-channel append never produces
an adjacent duplicate: when the candidate equals the last entry's
`(speaker, text)`, the dedup append returns the log unchanged. -/
theorem add_transcript_entry_unconditional (prev : List TranscriptEntry)
    (sp tx : String) (now : Nat) :
    (addTranscriptEntry prev sp tx now = prev ++ [⟨sp, tx, now⟩] ∧
      (addTranscriptEntry prev sp tx now).length = prev.length + 1) ∧
    ∀ e : TranscriptEntry, prev.getLast? = some e →
      transcriptDedupAppend prev e.speaker e.text now = prev := by
  refine ⟨⟨rfl, by simp [addTranscriptEntry]⟩, ?_⟩
  intro e he
  obtain ⟨hne, heq⟩ :=
    List.mem_getLast?_eq_getLast (Option.mem_def.mpr he)
  have hmem : e ∈ prev := heq ▸ List.getLast_mem hne
  have hany : prev.any (entryMatches e.speaker e.text) = true :=
    List.any_eq_true.mpr ⟨e, hmem, by simp [entryMatches]⟩
  rw [transcriptDedupAppend, if_pos hany]

/-- C10 (witness): through `addTranscriptEntry` the log acquires two
adjacent entries with identical speaker and empty text, while the
data-channel dedup append refuses the same candidate. -/
theorem add_transcript_entry_unconditional_witness :
    (addTranscriptEntry [⟨"agent", "", 0⟩] "agent" "" 1
      = [⟨"agent", "", 0⟩, ⟨"agent", "", 1⟩] ∧
      (addTranscriptEntry [⟨"agent", "", 0⟩] "agent" "" 1).length = 1 + 1) ∧
    transcriptDedupAppend [⟨"agent", "", 0⟩] "agent" "" 1
      = [⟨"agent", "", 0⟩] :=
  ⟨(add_transcript_entry_unconditional [⟨"agent", "", 0⟩] "agent" "" 1).1,
    (add_transcript_entry_unconditional [⟨"agent", "", 0⟩] "agent" "" 1).2
      ⟨"agent", "", 0⟩ rfl⟩
